import Mathlib

/-!
Shallow embedding of the bushfire radiant-heat model from
`bushfire_hazard/vegetation/vegetation.py` and `bushfire_hazard/vegetation/forest.py`
(om-henners/radiant_heat_modelling).

Python floats are modelled as real numbers; Python functions that could raise an
exception are modelled as `Except VegError` so that the presence or absence of an
error branch in the source is visible in the embedding.  The external numeric
library routines used by the source (`scipy.optimize.minimize_scalar`,
`numpy` broadcasting, the `memoize` package) are modelled by their documented
behaviour at the call sites that the source uses; the repository code itself is
translated statement by statement.
-/

open Real Filter

/-- The error kinds named by the specification (§7).  The Python source under
`src/` contains no `raise` statement and never constructs any of these; the
type exists so that an embedded function's (non-)use of an error branch is an
explicit, provable fact. -/
inductive VegError where
  | invalidParameter : VegError
  | invalidGeometry : VegError
  | optimizationFailure : VegError
  | broadcastError : VegError
deriving DecidableEq

/-- The abstract `Vegetation` class (`vegetation.py`).  Class attributes become
fields with the class-attribute values as defaults (Python lets callers shadow
them per instance).  The abstract method `_flame_length` is represented by the
field `flame_length`: a concrete subclass supplies its value (see
`ForestWoodland.toVegetation`); the memoized property always returns this one
value (memoization itself is modelled separately, see `memoRead`). -/
structure Vegetation where
  site_slope : ℝ
  receiver_height : ℝ
  flame_length : ℝ
  heat_of_combustion : ℝ := 18600
  flame_emissivity : ℝ := 0.95
  sigma : ℝ := 5.67 * (10 : ℝ) ^ (-11 : ℤ)
  flame_temperature : ℝ := 1200
  flame_width : ℝ := 100
  ambient_temperature : ℝ := 308
  relative_humidity : ℝ := 0.25

/-- One bracket of the view-factor formula: for a pair `(x, y)` the two summands
`x/√(1+x²)·arctan(y/√(1+x²)) + y/√(1+y²)·arctan(x/√(1+y²))`
exactly as they appear (for `(x_1, y_1)` and `(x_2, y_2)`) in the return
expression of `Vegetation._view_factor_calc`. -/
noncomputable def rectTerm (x y : ℝ) : ℝ :=
  x / Real.sqrt (1 + x ^ 2) * Real.arctan (y / Real.sqrt (1 + x ^ 2)) +
    y / Real.sqrt (1 + y ^ 2) * Real.arctan (x / Real.sqrt (1 + y ^ 2))

/-- `Vegetation._view_factor_calc(self, angle, separation_distance)`: the
closed-form view factor at a single candidate flame angle.  The Python body is
pure numpy arithmetic with no guard: a non-positive `path_length` is simply fed
through the divisions (numpy does not raise on it), so the embedding is a total
function. -/
noncomputable def Vegetation.view_factor_calc (v : Vegetation) (angle separation_distance : ℝ) : ℝ :=
  let path_length := separation_distance - 0.5 * v.flame_length * Real.cos angle
  let x_1 := (v.flame_length * Real.sin angle
      - 0.5 * v.flame_length * Real.cos angle * Real.tan v.site_slope
      - separation_distance * Real.tan v.site_slope - v.receiver_height) / path_length
  let x_2 := (v.receiver_height + path_length * Real.tan v.site_slope) / path_length
  let y_1 := 0.5 * v.flame_width / path_length
  let y_2 := 0.5 * v.flame_width / path_length
  1 / Real.pi * (rectTerm x_1 y_1 + rectTerm x_2 y_2)

/-- The result record of `scipy.optimize.minimize_scalar`: the solver returns an
`OptimizeResult` with the minimizer `x`, the objective value `fun` (field `f`
here; `fun` is a Lean keyword) and a `success` flag.  Per its documentation the
bounded solver does not raise on non-convergence: it sets `success = False`. -/
structure OptimizeResult where
  x : ℝ
  f : ℝ
  success : Bool

open Classical in
/-- Model of the external library call
`scipy.optimize.minimize_scalar(objective, bounds=(lo, hi), method='bounded')`:
idealised as exact bounded minimisation (spec §4.2 fixes only the domain and a
tolerance, "any bounded derivative-free 1-D minimizer suffices").  When the
objective attains a minimum on `[lo, hi]` the solver returns it with
`success = true`; otherwise it reports `success = false` at the lower bound. -/
noncomputable def minimize_scalar (f : ℝ → ℝ) (lo hi : ℝ) : OptimizeResult :=
  if h : ∃ x ∈ Set.Icc lo hi, ∀ y ∈ Set.Icc lo hi, f x ≤ f y then
    OptimizeResult.mk h.choose (f h.choose) true
  else OptimizeResult.mk lo (f lo) false

/-- The return statement of `Vegetation.view_factor`:
`return -res.fun, res.x`.  The source inspects no other field of the optimizer
result (in particular not `res.success`) and has no error branch. -/
def view_factor_return (res : OptimizeResult) : Except VegError (ℝ × ℝ) :=
  Except.ok (-res.f, res.x)

/-- `Vegetation.view_factor(self, separation_distance)`: minimise the negated
view factor over the bounds `(0, π)` and return the pair
`(view factor, maximising angle)`. -/
noncomputable def Vegetation.view_factor (v : Vegetation) (separation_distance : ℝ) :
    Except VegError (ℝ × ℝ) :=
  view_factor_return
    (minimize_scalar (fun angle => -v.view_factor_calc angle separation_distance) 0 Real.pi)

/-- The class attribute `Vegetation._calculation_coefficients`: the literal 5×4
float table from the source, row `n` = coefficients of the `n`-th power of the
path length, columns = (constant, ambient-temperature, flame-temperature,
humidity) regressors. -/
noncomputable def Vegetation.calculation_coefficients : Fin 5 → Fin 4 → ℝ :=
  ![![1.486, -2.003e-3, 4.68e-5, -6.052e-2],
    ![1.225e-2, -5.900e-5, 1.66e-6, -1.759e-3],
    ![-1.489e-4, 6.893e-7, -1.922e-8, 2.092e-5],
    ![8.381e-7, -3.283e-9, 1.051e-10, -1.166e-7],
    ![-1.685e-9, 7.637e-12, -2.085e-13, 2.350e-10]]

/-- The local array `a_n_coefficients` of `Vegetation.transmittance_factor`:
`[1, ambient_temperature, flame_temperature, relative_humidity]`. -/
noncomputable def Vegetation.a_n_coefficients (v : Vegetation) : Fin 4 → ℝ :=
  ![1, v.ambient_temperature, v.flame_temperature, v.relative_humidity]

/-- The source line `a_n = (a_n_coefficients * self._calculation_coefficients).sum(axis=1)`:
numpy broadcasts the shape-(4,) regressor row against the shape-(5,4) table and
sums each row. -/
noncomputable def Vegetation.transmittance_a (v : Vegetation) : Fin 5 → ℝ :=
  fun n => ∑ k : Fin 4, v.a_n_coefficients k * Vegetation.calculation_coefficients n k

/-- `Vegetation.transmittance_factor(self, angle, separation_distance)` on a
scalar separation distance: `tau = (a_n * path_length ** arange(5)).sum()`. -/
noncomputable def Vegetation.transmittance_factor (v : Vegetation)
    (angle separation_distance : ℝ) : ℝ :=
  let path_length := separation_distance - 0.5 * v.flame_length * Real.cos angle
  ∑ n : Fin 5, v.transmittance_a n * path_length ^ (n : ℕ)

/-- `Vegetation.transmittance_factor` applied to an *array* of separation
distances (the spec's `float | array` signature).  Modelled after numpy
broadcasting of the source expression `path_length ** np.arange(5)`: a
shape-`(k,)` path-length array against the shape-`(5,)` exponent array
broadcasts only for `k = 5` (element-wise `p_n ** n`, then a scalar sum) or
`k = 1` (the scalar computation); any other length raises a broadcasting
`ValueError`. -/
noncomputable def Vegetation.transmittance_factor_vec (v : Vegetation)
    (angle : ℝ) (ds : List ℝ) : Except VegError ℝ :=
  let path_length := ds.map fun d => d - 0.5 * v.flame_length * Real.cos angle
  if h5 : path_length.length = 5 then
    Except.ok (∑ n : Fin 5, v.transmittance_a n * (path_length.get (Fin.cast h5.symm n)) ^ (n : ℕ))
  else if path_length.length = 1 then
    Except.ok (∑ n : Fin 5, v.transmittance_a n * path_length.headI ^ (n : ℕ))
  else Except.error VegError.broadcastError

/-- The scalar closure `radiant_heat` inside `Vegetation.radiant_heat_flux`:
`phi, angle = self.view_factor(d); tau = self.transmittance_factor(angle, d);`
`return phi * flame_emissivity * sigma * flame_temperature**4 * tau`. -/
noncomputable def Vegetation.radiant_heat_flux (v : Vegetation) (separation_distance : ℝ) :
    Except VegError ℝ :=
  match v.view_factor separation_distance with
  | Except.error e => Except.error e
  | Except.ok (phi, angle) =>
      Except.ok (phi * v.flame_emissivity * v.sigma * v.flame_temperature ^ 4 *
        v.transmittance_factor angle separation_distance)

/-- `Vegetation.radiant_heat_flux` on an array of separation distances: the
source wraps the scalar closure in `np.vectorize`, which applies it to each
element independently. -/
noncomputable def Vegetation.radiant_heat_flux_vec (v : Vegetation) (ds : List ℝ) :
    List (Except VegError ℝ) :=
  ds.map v.radiant_heat_flux

/-- `ForestWoodland` (`forest.py`): site parameters plus the per-species
fuel-load constants (abstract properties in Python, fields here; `Forest` and
`Woodland` instantiate them). -/
structure ForestWoodland where
  site_slope : ℝ
  receiver_height : ℝ
  fdi : ℝ
  overall_fuel_load : ℝ
  surface_fuel_load : ℝ

/-- `ForestWoodland._rate_of_spread`:
`0.0012 * fdi * surface_fuel_load * exp(0.069 * site_slope)`. -/
noncomputable def ForestWoodland.rate_of_spread (fw : ForestWoodland) : ℝ :=
  0.0012 * fw.fdi * fw.surface_fuel_load * Real.exp (0.069 * fw.site_slope)

/-- `ForestWoodland._flame_length`:
`(13 * rate_of_spread + 0.24 * overall_fuel_load) / 2`. -/
noncomputable def ForestWoodland.flame_length (fw : ForestWoodland) : ℝ :=
  (13 * fw.rate_of_spread + 0.24 * fw.overall_fuel_load) / 2

/-- `Forest` (Table 3): `overall_fuel_load = 35`, `surface_fuel_load = 25` t/ha. -/
def Forest (site_slope receiver_height fdi : ℝ) : ForestWoodland :=
  ForestWoodland.mk site_slope receiver_height fdi 35 25

/-- `Woodland` (Table 3): `overall_fuel_load = 25`, `surface_fuel_load = 15` t/ha. -/
def Woodland (site_slope receiver_height fdi : ℝ) : ForestWoodland :=
  ForestWoodland.mk site_slope receiver_height fdi 25 15

/-- `ForestWoodland.__init__(self, site_slope, receiver_height, fdi)` for the
`Forest` species: the Python constructor chain only stores its arguments
(`self.fdi = fdi; super().__init__(...)`), so the embedded constructor is a
total function that can never take the error branch. -/
def Forest.init (site_slope receiver_height fdi : ℝ) : Except VegError ForestWoodland :=
  Except.ok (Forest site_slope receiver_height fdi)

/-- `ForestWoodland.__init__` for the `Woodland` species; as for `Forest.init`,
no argument is validated. -/
def Woodland.init (site_slope receiver_height fdi : ℝ) : Except VegError ForestWoodland :=
  Except.ok (Woodland site_slope receiver_height fdi)

/-- The `Vegetation`-level view of a `ForestWoodland` instance: the shared class
constants keep their class-attribute default values and `flame_length` is the
value computed by `ForestWoodland._flame_length`. -/
noncomputable def ForestWoodland.toVegetation (fw : ForestWoodland) : Vegetation :=
  { site_slope := fw.site_slope
    receiver_height := fw.receiver_height
    flame_length := fw.flame_length }

/-- Cache key of the memoization layer: (model instance identity, quantity
name).  `vegetation.py` builds one process-wide `store = {}` and
`memo = Memoizer(store)`; the decorated property getters are keyed by the
decorated function and its arguments, i.e. by the quantity being read and the
instance (`self`) it is read from. -/
abbrev MemoKey : Type := Nat × String

/-- The process-wide `store` dictionary, as an association list. -/
abbrev MemoStore : Type := List (MemoKey × ℝ)

/-- Dictionary lookup in the memoization store. -/
def memoLookup (s : MemoStore) (k : MemoKey) : Option ℝ :=
  (s.find? fun e => e.1 = k).map fun e => e.2

/-- One read of a memoized property (`@property @memo` in `vegetation.py`,
modelled from spec §4.5): if the key is cached its stored value is returned
unchanged, otherwise the underlying computation's value `c` is computed,
stored and returned.  The returned `Bool` records whether the underlying
computation ran. -/
def memoRead (c : ℝ) (s : MemoStore) (k : MemoKey) : ℝ × MemoStore × Bool :=
  match memoLookup s k with
  | some v => (v, s, false)
  | none => (c, (k, c) :: s, true)

/-- `n` successive reads of the same memoized property on the same instance:
returns the list of returned values, the final store, and how many times the
underlying computation ran. -/
def memoReadN (c : ℝ) (s : MemoStore) (k : MemoKey) : Nat → List ℝ × MemoStore × Nat
  | 0 => ([], s, 0)
  | Nat.succ m =>
      let r := memoRead c s k
      let rest := memoReadN c r.2.1 k m
      (r.1 :: rest.1, rest.2.1, (if r.2.2 then 1 else 0) + rest.2.2)

/-- The coefficient table exactly as printed in spec §6 (used to compare the
source constant `Vegetation.calculation_coefficients` against the spec's
words). -/
noncomputable def specCoefficientTable : Fin 5 → Fin 4 → ℝ :=
  ![![1.486, -2.003e-3, 4.68e-5, -6.052e-2],
    ![1.225e-2, -5.900e-5, 1.66e-6, -1.759e-3],
    ![-1.489e-4, 6.893e-7, -1.922e-8, 2.092e-5],
    ![8.381e-7, -3.283e-9, 1.051e-10, -1.166e-7],
    ![-1.685e-9, 7.637e-12, -2.085e-13, 2.350e-10]]

/-- The regressor vector `r = [1, T_ambient, T_flame, RH]` as worded in spec
§4.3. -/
noncomputable def specRegressors (v : Vegetation) : Fin 4 → ℝ :=
  ![1, v.ambient_temperature, v.flame_temperature, v.relative_humidity]

/-! ### Helper lemmas -/

lemma forest_50_rate_of_spread : (Forest 0 0 50).rate_of_spread = 1.5 := by
  unfold ForestWoodland.rate_of_spread
  simp [Forest]
  norm_num

lemma forest_50_flame_length : (Forest 0 0 50).flame_length = 13.95 := by
  unfold ForestWoodland.flame_length
  rw [forest_50_rate_of_spread]
  simp [Forest]
  norm_num

lemma memoLookup_insert_self (s : MemoStore) (k : MemoKey) (c : ℝ) :
    memoLookup ((k, c) :: s) k = some c := by
  simp [memoLookup, List.find?]

lemma memoLookup_insert_other (s : MemoStore) (k k2 : MemoKey) (c : ℝ) (h : k2 ≠ k) :
    memoLookup ((k, c) :: s) k2 = memoLookup s k2 := by
  simp [memoLookup, List.find?, h, Ne.symm h]

lemma memoRead_of_none {s : MemoStore} {k : MemoKey} (c : ℝ) (h : memoLookup s k = none) :
    memoRead c s k = (c, (k, c) :: s, true) := by
  simp [memoRead, h]

lemma memoRead_of_some {s : MemoStore} {k : MemoKey} {v : ℝ} (c : ℝ)
    (h : memoLookup s k = some v) : memoRead c s k = (v, s, false) := by
  simp [memoRead, h]

lemma memoReadN_cached {s : MemoStore} {k : MemoKey} {v : ℝ} (c : ℝ)
    (h : memoLookup s k = some v) :
    ∀ n : Nat, memoReadN c s k n = (List.replicate n v, s, 0) := by
  intro n
  induction n with
  | zero => rfl
  | succ m ih => simp [memoReadN, memoRead_of_some c h, ih, List.replicate]

/-! ### Claims -/

/-- C2: for every `ForestWoodland` model, `rate_of_spread` is
`0.0012 * fdi * surface_fuel_load * exp(0.069 * site_slope)` and `flame_length`
is `(13 * rate_of_spread + 0.24 * overall_fuel_load) / 2`; for the `Forest`
variant with `site_slope = 0`, `receiver_height = 0`, `fire_danger_index = 50`
the rate of spread is `1.5` and the flame length `13.95`. -/
theorem C2_flame_length_and_rate_of_spread :
    (∀ fw : ForestWoodland,
      fw.rate_of_spread
          = 0.0012 * fw.fdi * fw.surface_fuel_load * Real.exp (0.069 * fw.site_slope) ∧
        fw.flame_length = (13 * fw.rate_of_spread + 0.24 * fw.overall_fuel_load) / 2) ∧
    (Forest 0 0 50).rate_of_spread = 1.5 ∧ (Forest 0 0 50).flame_length = 13.95 :=
  ⟨fun _ => ⟨rfl, rfl⟩, forest_50_rate_of_spread, forest_50_flame_length⟩

/-- C10: a `ForestWoodland` instance built with `fire_danger_index = 0` has
`rate_of_spread = 0` but `flame_length = 0.12 * overall_fuel_load`
(`4.2` for `Forest`, `3.0` for `Woodland`), a strictly positive flame length. -/
theorem C10_zero_fdi_flame_length :
    (∀ fw : ForestWoodland, fw.fdi = 0 →
      fw.rate_of_spread = 0 ∧ fw.flame_length = 0.12 * fw.overall_fuel_load) ∧
    (∀ site_slope receiver_height : ℝ,
      (Forest site_slope receiver_height 0).flame_length = 4.2 ∧
      (Woodland site_slope receiver_height 0).flame_length = 3 ∧
      0 < (Forest site_slope receiver_height 0).flame_length ∧
      0 < (Woodland site_slope receiver_height 0).flame_length) := by
  have hros : ∀ fw : ForestWoodland, fw.fdi = 0 → fw.rate_of_spread = 0 := by
    intro fw h
    unfold ForestWoodland.rate_of_spread
    rw [h]
    ring
  have hfl : ∀ fw : ForestWoodland, fw.fdi = 0 →
      fw.flame_length = 0.12 * fw.overall_fuel_load := by
    intro fw h
    unfold ForestWoodland.flame_length
    rw [hros fw h]
    ring
  refine ⟨fun fw h => ⟨hros fw h, hfl fw h⟩, fun s r => ?_⟩
  have h1 : (Forest s r 0).flame_length = 4.2 := by
    rw [hfl (Forest s r 0) rfl]
    show (0.12 : ℝ) * 35 = 4.2
    norm_num
  have h2 : (Woodland s r 0).flame_length = 3 := by
    rw [hfl (Woodland s r 0) rfl]
    show (0.12 : ℝ) * 25 = 3
    norm_num
  exact ⟨h1, h2, by rw [h1]; norm_num, by rw [h2]; norm_num⟩

/-- C10 witness: the general part of `C10_zero_fdi_flame_length` applied to the
concrete instance `Forest 1 2 0`. -/
theorem C10_zero_fdi_flame_length_witness :
    (Forest 1 2 0).fdi = 0 ∧
      (Forest 1 2 0).rate_of_spread = 0 ∧
      (Forest 1 2 0).flame_length = 0.12 * (Forest 1 2 0).overall_fuel_load :=
  ⟨rfl, C10_zero_fdi_flame_length.1 (Forest 1 2 0) rfl⟩

/-- C3 counterexample: the claim demands that construction with a negative
`site_slope` (here `-1`) or negative `receiver_height` (here `-2`) fail with
`InvalidParameter`; the source constructors only store their arguments, so
construction succeeds. -/
theorem C3_counterexample :
    ((-1 : ℝ) < 0) ∧ Forest.init (-1) (-2) 50 = Except.ok (Forest (-1) (-2) 50) :=
  ⟨by norm_num, rfl⟩

/-- C3 amended: construction of a vegetation model never fails: the
constructors perform no validation of `site_slope`, `receiver_height` or
`fire_danger_index` and accept any real inputs. -/
theorem C3_construction_never_fails :
    ∀ site_slope receiver_height fdi : ℝ,
      Forest.init site_slope receiver_height fdi
          = Except.ok (Forest site_slope receiver_height fdi) ∧
        Woodland.init site_slope receiver_height fdi
          = Except.ok (Woodland site_slope receiver_height fdi) :=
  fun _ _ _ => ⟨rfl, rfl⟩

/-- C9 counterexample: an optimizer result carrying `success = false` (the
bounded search did not converge) is still turned into an ordinary returned
value by `view_factor`'s return statement, not into an `OptimizationFailure`. -/
theorem C9_counterexample :
    (OptimizeResult.mk 0.5 (-0.3) false).success = false ∧
      view_factor_return (OptimizeResult.mk 0.5 (-0.3) false) = Except.ok (0.3, 0.5) := by
  refine ⟨rfl, ?_⟩
  unfold view_factor_return
  norm_num

/-- C9 amended: `view_factor` never inspects the optimizer's `success` flag;
whatever estimate `minimize_scalar` reports is returned unconditionally (scipy's
bounded minimizer signals non-convergence via `success = False` instead of
raising, and the source ignores that field). -/
theorem C9_success_flag_ignored :
    ∀ res : OptimizeResult, res.success = false →
      view_factor_return res = Except.ok (-res.f, res.x) :=
  fun _ _ => rfl

/-- C9 witness: `C9_success_flag_ignored` at the concrete unconverged result
`⟨1, -2, false⟩`. -/
theorem C9_success_flag_ignored_witness :
    view_factor_return (OptimizeResult.mk 1 (-2) false) = Except.ok (-(-2 : ℝ), 1) :=
  C9_success_flag_ignored (OptimizeResult.mk 1 (-2) false) rfl

/-- C1 counterexample: for the `Forest` model with `site_slope = 0`,
`receiver_height = 0`, `fire_danger_index = 50` (flame length `13.95`) and
separation distance `d = 1 < 0.5 * flame_length`, the path length at the
candidate angle `0` is negative, yet `view_factor` returns an ordinary result
instead of raising `InvalidGeometry` — no geometry guard exists in the source. -/
theorem C1_counterexample :
    (1 : ℝ) < 0.5 * ((Forest 0 0 50).toVegetation).flame_length ∧
      (1 : ℝ) - 0.5 * ((Forest 0 0 50).toVegetation).flame_length * Real.cos 0 < 0 ∧
      ∃ pr, ((Forest 0 0 50).toVegetation).view_factor 1 = Except.ok pr := by
  have h : ((Forest 0 0 50).toVegetation).flame_length = 13.95 := forest_50_flame_length
  refine ⟨?_, ?_, ⟨_, rfl⟩⟩
  · rw [h]; norm_num
  · rw [h, Real.cos_zero]; norm_num

/-- C1 amended: the source has no flame-envelope guard: for every model
instance and every separation distance — in particular any
`d < 0.5 * flame_length`, where the view-factor formula's path length turns
non-positive — `view_factor` and `radiant_heat_flux` still return ordinary
values and never raise `InvalidGeometry`. -/
theorem C1_no_invalid_geometry :
    ∀ (v : Vegetation) (d : ℝ), d < 0.5 * v.flame_length →
      (∃ pr, v.view_factor d = Except.ok pr) ∧
        (∃ r, v.radiant_heat_flux d = Except.ok r) :=
  fun _ _ _ => ⟨⟨_, rfl⟩, ⟨_, rfl⟩⟩

/-- C1 witness: `C1_no_invalid_geometry` at the `Forest 0 0 50` model and
`d = 1` (inside the flame envelope, since `0.5 * 13.95 = 6.975 > 1`). -/
theorem C1_no_invalid_geometry_witness :
    (∃ pr, ((Forest 0 0 50).toVegetation).view_factor 1 = Except.ok pr) ∧
      (∃ r, ((Forest 0 0 50).toVegetation).radiant_heat_flux 1 = Except.ok r) :=
  C1_no_invalid_geometry ((Forest 0 0 50).toVegetation) 1
    (by rw [show ((Forest 0 0 50).toVegetation).flame_length = 13.95 from forest_50_flame_length]
        norm_num)

/-- C4: the memoization layer computes a quantity at most once per
(instance identity, quantity name) key: starting from any store with no entry
for the key, `n ≥ 1` reads run the underlying computation exactly once, every
read returns the identical first-computed value, the key ends up cached, and
entries of every other key (other instance or other quantity) are untouched. -/
theorem C4_memoized_once :
    ∀ (s : MemoStore) (k : MemoKey) (c : ℝ) (n : Nat),
      memoLookup s k = none → 0 < n →
      (memoReadN c s k n).2.2 = 1 ∧
        (memoReadN c s k n).1 = List.replicate n c ∧
        memoLookup (memoReadN c s k n).2.1 k = some c ∧
        ∀ k2 : MemoKey, k2 ≠ k →
          memoLookup (memoReadN c s k n).2.1 k2 = memoLookup s k2 := by
  intro s k c n hnone hn
  obtain ⟨m, rfl⟩ : ∃ m, n = m + 1 := ⟨n - 1, (Nat.succ_pred_eq_of_pos hn).symm⟩
  have hstep : memoReadN c s k (m + 1)
      = (c :: List.replicate m c, (k, c) :: s, 1) := by
    simp [memoReadN, memoRead_of_none c hnone,
      memoReadN_cached c (memoLookup_insert_self s k c) m]
  rw [hstep]
  refine ⟨rfl, rfl, memoLookup_insert_self s k c, fun k2 h2 => ?_⟩
  exact memoLookup_insert_other s k k2 c h2

/-- C4 witness: three successive reads of the memoized `flame_length` of a
concrete instance (identity key `0`), starting from the empty global store,
compute it once and always return the same value. -/
theorem C4_memoized_once_witness :
    (memoReadN ((Forest 0 0 50).flame_length) [] (0, "flame_length") 3).2.2 = 1 ∧
      (memoReadN ((Forest 0 0 50).flame_length) [] (0, "flame_length") 3).1
          = List.replicate 3 ((Forest 0 0 50).flame_length) ∧
      memoLookup (memoReadN ((Forest 0 0 50).flame_length) [] (0, "flame_length") 3).2.1
          (0, "flame_length") = some ((Forest 0 0 50).flame_length) ∧
      ∀ k2 : MemoKey, k2 ≠ (0, "flame_length") →
        memoLookup (memoReadN ((Forest 0 0 50).flame_length) [] (0, "flame_length") 3).2.1 k2
            = memoLookup [] k2 :=
  C4_memoized_once [] (0, "flame_length") ((Forest 0 0 50).flame_length) 3 rfl (by norm_num)

/-- C6: `transmittance_factor` is exactly the spec's polynomial surface
`τ = Σ_n (Σ_k C[n][k]·r[k]) · p^n` with `p = d − 0.5·L·cos(angle)`,
`r = [1, T_ambient, T_flame, RH]`, and the source's coefficient table is
bit-for-bit the table printed in the spec. -/
theorem C6_transmittance_matches_spec :
    (∀ (v : Vegetation) (angle d : ℝ),
      v.transmittance_factor angle d =
        ∑ n : Fin 5, (∑ k : Fin 4, specCoefficientTable n k * specRegressors v k) *
          (d - 0.5 * v.flame_length * Real.cos angle) ^ (n : ℕ)) ∧
    Vegetation.calculation_coefficients = specCoefficientTable := by
  have htab : Vegetation.calculation_coefficients = specCoefficientTable := rfl
  refine ⟨fun v angle d => ?_, htab⟩
  have hreg : v.a_n_coefficients = specRegressors v := rfl
  unfold Vegetation.transmittance_factor Vegetation.transmittance_a
  refine Finset.sum_congr rfl fun n _ => ?_
  congr 1
  rw [hreg, htab]
  exact Finset.sum_congr rfl fun k _ => mul_comm _ _

/-- C7: `radiant_heat_flux` returns `φ · ε · σ · T⁴ · τ` where `(φ, angle)` is
the `view_factor` result at that distance and `τ` the transmittance factor at
that angle and distance; and every model built from a `ForestWoodland` carries
the spec's default constants. -/
theorem C7_radiant_heat_flux_composition :
    (∀ (v : Vegetation) (d : ℝ),
      v.radiant_heat_flux d = (v.view_factor d).map
        (fun pa => pa.1 * v.flame_emissivity * v.sigma * v.flame_temperature ^ 4 *
          v.transmittance_factor pa.2 d)) ∧
    (∀ fw : ForestWoodland,
      fw.toVegetation.heat_of_combustion = 18600 ∧
      fw.toVegetation.flame_emissivity = 0.95 ∧
      fw.toVegetation.sigma = 5.67e-11 ∧
      fw.toVegetation.flame_temperature = 1200 ∧
      fw.toVegetation.flame_width = 100 ∧
      fw.toVegetation.ambient_temperature = 308 ∧
      fw.toVegetation.relative_humidity = 0.25) := by
  constructor
  · intro v d
    cases h : v.view_factor d with
    | error e => simp [Vegetation.radiant_heat_flux, h, Except.map]
    | ok pa =>
        cases pa with
        | mk phi angle => simp [Vegetation.radiant_heat_flux, h, Except.map]
  · intro fw
    refine ⟨rfl, rfl, ?_, rfl, rfl, rfl, rfl⟩
    show (5.67 : ℝ) * (10 : ℝ) ^ (-11 : ℤ) = 5.67e-11
    norm_num

/-- C5 counterexample: `transmittance_factor` applied to the two-element
distance array `[20, 30]` fails with a numpy broadcasting error
(`(2,) ** (5,)` does not broadcast) instead of returning the element-wise
results the claim demands. -/
theorem C5_counterexample :
    ((Forest 0 0 50).toVegetation).transmittance_factor_vec 0 (20 :: 30 :: []) =
      Except.error VegError.broadcastError := by
  rfl

/-- C5 amended: `radiant_heat_flux` on an array of separation distances is the
element-wise map of the scalar evaluation (via `np.vectorize`), but
`transmittance_factor` does not support general array inputs: any distance
array whose length is neither 1 nor 5 fails with a broadcasting error. -/
theorem C5_vectorization :
    (∀ (v : Vegetation) (d : ℝ) (ds : List ℝ),
      v.radiant_heat_flux_vec (d :: ds) = v.radiant_heat_flux d :: v.radiant_heat_flux_vec ds ∧
        (v.radiant_heat_flux_vec ds).length = ds.length) ∧
    (∀ (v : Vegetation) (angle : ℝ) (ds : List ℝ), ds.length ≠ 1 → ds.length ≠ 5 →
      v.transmittance_factor_vec angle ds = Except.error VegError.broadcastError) := by
  constructor
  · exact fun v d ds => ⟨rfl, by simp [Vegetation.radiant_heat_flux_vec]⟩
  · intro v angle ds h1 h5
    simp only [Vegetation.transmittance_factor_vec, List.length_map]
    rw [dif_neg h5, if_neg h1]

/-- C5 witness: the two parts of `C5_vectorization` at the `Forest 0 0 50`
model: element-wise agreement of the vectorized radiant heat flux on the array
`[20, 30]`, and the broadcasting failure of array transmittance there. -/
theorem C5_vectorization_witness :
    (((Forest 0 0 50).toVegetation).radiant_heat_flux_vec (20 :: 30 :: []) =
        ((Forest 0 0 50).toVegetation).radiant_heat_flux 20 ::
          ((Forest 0 0 50).toVegetation).radiant_heat_flux_vec (30 :: []) ∧
      (((Forest 0 0 50).toVegetation).radiant_heat_flux_vec (30 :: [])).length
          = (30 :: ([] : List ℝ)).length) ∧
    ((Forest 0 0 50).toVegetation).transmittance_factor_vec 0.7 (20 :: 30 :: []) =
      Except.error VegError.broadcastError :=
  ⟨C5_vectorization.1 ((Forest 0 0 50).toVegetation) 20 (30 :: []),
    C5_vectorization.2 ((Forest 0 0 50).toVegetation) 0.7 (20 :: 30 :: [])
      (by norm_num) (by norm_num)⟩

/-! ### Analysis of the view-factor bracket (for C8) -/

lemma sqrt_one_add_sq_pos (x : ℝ) : 0 < Real.sqrt (1 + x ^ 2) :=
  Real.sqrt_pos.2 (by positivity)

lemma rectTerm_hasDerivAt (y x : ℝ) :
    HasDerivAt (fun z => rectTerm z y)
      (Real.arctan (y / Real.sqrt (1 + x ^ 2)) / Real.sqrt (1 + x ^ 2) ^ 3
        + y / ((1 + x ^ 2) * (1 + x ^ 2 + y ^ 2))) x := by
  have hS0 : (0:ℝ) < Real.sqrt (1 + x ^ 2) := sqrt_one_add_sq_pos x
  have hSne : Real.sqrt (1 + x ^ 2) ≠ 0 := ne_of_gt hS0
  have hT0 : (0:ℝ) < Real.sqrt (1 + y ^ 2) := sqrt_one_add_sq_pos y
  have hTne : Real.sqrt (1 + y ^ 2) ≠ 0 := ne_of_gt hT0
  have hS2 : Real.sqrt (1 + x ^ 2) ^ 2 = 1 + x ^ 2 := Real.sq_sqrt (by positivity)
  have hT2 : Real.sqrt (1 + y ^ 2) ^ 2 = 1 + y ^ 2 := Real.sq_sqrt (by positivity)
  have h1 : HasDerivAt (fun z : ℝ => 1 + z ^ 2) (2 * x) x := by
    simpa using ((hasDerivAt_pow 2 x).const_add 1)
  have hS : HasDerivAt (fun z : ℝ => Real.sqrt (1 + z ^ 2))
      (2 * x / (2 * Real.sqrt (1 + x ^ 2))) x := h1.sqrt (by positivity)
  have hq : HasDerivAt (fun z : ℝ => z / Real.sqrt (1 + z ^ 2))
      ((1 * Real.sqrt (1 + x ^ 2) - x * (2 * x / (2 * Real.sqrt (1 + x ^ 2)))) /
        Real.sqrt (1 + x ^ 2) ^ 2) x := (hasDerivAt_id x).div hS hSne
  have hyS : HasDerivAt (fun z : ℝ => y / Real.sqrt (1 + z ^ 2))
      ((0 * Real.sqrt (1 + x ^ 2) - y * (2 * x / (2 * Real.sqrt (1 + x ^ 2)))) /
        Real.sqrt (1 + x ^ 2) ^ 2) x := (hasDerivAt_const x y).div hS hSne
  have hA : HasDerivAt (fun z : ℝ => Real.arctan (y / Real.sqrt (1 + z ^ 2)))
      (1 / (1 + (y / Real.sqrt (1 + x ^ 2)) ^ 2) *
        ((0 * Real.sqrt (1 + x ^ 2) - y * (2 * x / (2 * Real.sqrt (1 + x ^ 2)))) /
          Real.sqrt (1 + x ^ 2) ^ 2)) x := hyS.arctan
  have hxt : HasDerivAt (fun z : ℝ => z / Real.sqrt (1 + y ^ 2))
      (1 / Real.sqrt (1 + y ^ 2)) x := by
    simpa using (hasDerivAt_id x).div_const (Real.sqrt (1 + y ^ 2))
  have hA2 : HasDerivAt (fun z : ℝ => Real.arctan (z / Real.sqrt (1 + y ^ 2)))
      (1 / (1 + (x / Real.sqrt (1 + y ^ 2)) ^ 2) * (1 / Real.sqrt (1 + y ^ 2))) x := hxt.arctan
  have hmain := (hq.mul hA).add (hA2.const_mul (y / Real.sqrt (1 + y ^ 2)))
  have heq :
      (1 * Real.sqrt (1 + x ^ 2) - x * (2 * x / (2 * Real.sqrt (1 + x ^ 2)))) /
            Real.sqrt (1 + x ^ 2) ^ 2 * Real.arctan (y / Real.sqrt (1 + x ^ 2))
        + x / Real.sqrt (1 + x ^ 2) *
            (1 / (1 + (y / Real.sqrt (1 + x ^ 2)) ^ 2) *
              ((0 * Real.sqrt (1 + x ^ 2) - y * (2 * x / (2 * Real.sqrt (1 + x ^ 2)))) /
                Real.sqrt (1 + x ^ 2) ^ 2))
        + y / Real.sqrt (1 + y ^ 2) *
            (1 / (1 + (x / Real.sqrt (1 + y ^ 2)) ^ 2) * (1 / Real.sqrt (1 + y ^ 2)))
      = Real.arctan (y / Real.sqrt (1 + x ^ 2)) / Real.sqrt (1 + x ^ 2) ^ 3
          + y / ((1 + x ^ 2) * (1 + x ^ 2 + y ^ 2)) := by
    generalize ha : Real.arctan (y / Real.sqrt (1 + x ^ 2)) = a
    generalize hSg : Real.sqrt (1 + x ^ 2) = S at hS0 hSne hS2
    generalize hTg : Real.sqrt (1 + y ^ 2) = T at hT0 hTne hT2
    rw [← hS2]
    have hx2 : S ^ 2 - x ^ 2 = 1 := by rw [hS2]; ring
    have hSy : S ^ 2 + y ^ 2 ≠ 0 := by positivity
    have hTx : T ^ 2 + x ^ 2 ≠ 0 := by positivity
    have hTx2 : T ^ 2 + x ^ 2 = S ^ 2 + y ^ 2 := by rw [hS2, hT2]; ring
    have e1 : (1 * S - x * (2 * x / (2 * S))) / S ^ 2 = (S ^ 2 - x ^ 2) / S ^ 3 := by
      field_simp
      ring
    have e2 : x / S * (1 / (1 + (y / S) ^ 2) * ((0 * S - y * (2 * x / (2 * S))) / S ^ 2))
        = -(x ^ 2 * y) / (S ^ 2 * (S ^ 2 + y ^ 2)) := by
      have h1y : 1 + (y / S) ^ 2 ≠ 0 := by positivity
      field_simp
      ring
    have e3 : y / T * (1 / (1 + (x / T) ^ 2) * (1 / T)) = y / (T ^ 2 + x ^ 2) := by
      have h1x : 1 + (x / T) ^ 2 ≠ 0 := by positivity
      field_simp
      ring
    have e4 : y / (S ^ 2 + y ^ 2) - x ^ 2 * y / (S ^ 2 * (S ^ 2 + y ^ 2))
        = y / (S ^ 2 * (S ^ 2 + y ^ 2)) := by
      have e5 : y / (S ^ 2 + y ^ 2) - x ^ 2 * y / (S ^ 2 * (S ^ 2 + y ^ 2))
          = y * (S ^ 2 - x ^ 2) / (S ^ 2 * (S ^ 2 + y ^ 2)) := by
        field_simp
        ring
      rw [e5, hx2, mul_one]
    rw [e1, e2, e3, hx2, hTx2]
    linear_combination e4
  exact heq ▸ (by simpa [rectTerm] using hmain)

lemma rectTerm_strictMono {y : ℝ} (hy : 0 < y) : StrictMono fun x => rectTerm x y := by
  apply strictMono_of_hasDerivAt_pos (fun x => rectTerm_hasDerivAt y x)
  intro x
  have hS0 := sqrt_one_add_sq_pos x
  have hA : 0 < Real.arctan (y / Real.sqrt (1 + x ^ 2)) := by
    rw [← Real.arctan_zero]
    exact Real.arctan_strictMono (by positivity)
  have h1 : 0 < Real.arctan (y / Real.sqrt (1 + x ^ 2)) / Real.sqrt (1 + x ^ 2) ^ 3 :=
    div_pos hA (by positivity)
  have h2 : 0 < y / ((1 + x ^ 2) * (1 + x ^ 2 + y ^ 2)) := div_pos hy (by positivity)
  linarith

lemma sqrt_one_add_sq_tendsto : Tendsto (fun x : ℝ => Real.sqrt (1 + x ^ 2)) atTop atTop := by
  apply tendsto_atTop_mono (fun x => ?_) tendsto_id
  calc (id x : ℝ) ≤ |x| := le_abs_self x
  _ = Real.sqrt (x ^ 2) := (Real.sqrt_sq_eq_abs x).symm
  _ ≤ Real.sqrt (1 + x ^ 2) := Real.sqrt_le_sqrt (by linarith)

lemma le_sqrt_one_add_sq (x : ℝ) : |x| ≤ Real.sqrt (1 + x ^ 2) := by
  calc |x| = Real.sqrt (x ^ 2) := (Real.sqrt_sq_eq_abs x).symm
  _ ≤ Real.sqrt (1 + x ^ 2) := Real.sqrt_le_sqrt (by linarith)

lemma rectTerm_tendsto (y : ℝ) :
    Tendsto (fun x => rectTerm x y) atTop
      (nhds (y / Real.sqrt (1 + y ^ 2) * (Real.pi / 2))) := by
  have hT0 := sqrt_one_add_sq_pos y
  have h1 : Tendsto (fun x : ℝ => y / Real.sqrt (1 + x ^ 2)) atTop (nhds 0) :=
    tendsto_const_nhds.div_atTop sqrt_one_add_sq_tendsto
  have h2 : Tendsto (fun x : ℝ => Real.arctan (y / Real.sqrt (1 + x ^ 2))) atTop (nhds 0) := by
    have h3 := (Real.continuous_arctan.tendsto 0).comp h1
    simpa [Real.arctan_zero] using h3
  have hbound : ∀ x : ℝ,
      ‖x / Real.sqrt (1 + x ^ 2) * Real.arctan (y / Real.sqrt (1 + x ^ 2))‖ ≤
        |Real.arctan (y / Real.sqrt (1 + x ^ 2))| := by
    intro x
    have hS0 := sqrt_one_add_sq_pos x
    have hxS : |x / Real.sqrt (1 + x ^ 2)| ≤ 1 := by
      rw [abs_div, abs_of_pos hS0, div_le_one hS0]
      exact le_sqrt_one_add_sq x
    calc ‖x / Real.sqrt (1 + x ^ 2) * Real.arctan (y / Real.sqrt (1 + x ^ 2))‖
        = |x / Real.sqrt (1 + x ^ 2)| * |Real.arctan (y / Real.sqrt (1 + x ^ 2))| := by
          rw [Real.norm_eq_abs, abs_mul]
    _ ≤ 1 * |Real.arctan (y / Real.sqrt (1 + x ^ 2))| :=
          mul_le_mul_of_nonneg_right hxS (abs_nonneg _)
    _ = |Real.arctan (y / Real.sqrt (1 + x ^ 2))| := one_mul _
  have hfirst : Tendsto (fun x : ℝ =>
      x / Real.sqrt (1 + x ^ 2) * Real.arctan (y / Real.sqrt (1 + x ^ 2))) atTop (nhds 0) := by
    apply squeeze_zero_norm hbound
    simpa using h2.abs
  have hxt : Tendsto (fun x : ℝ => x / Real.sqrt (1 + y ^ 2)) atTop atTop :=
    Tendsto.atTop_div_const hT0 tendsto_id
  have harct : Tendsto (fun x : ℝ => Real.arctan (x / Real.sqrt (1 + y ^ 2))) atTop
      (nhds (Real.pi / 2)) :=
    (Real.tendsto_arctan_atTop.mono_right nhdsWithin_le_nhds).comp hxt
  have hsecond := harct.const_mul (y / Real.sqrt (1 + y ^ 2))
  have hsum := hfirst.add hsecond
  simpa [rectTerm] using hsum

lemma rectTerm_lt {y : ℝ} (hy : 0 < y) (x : ℝ) :
    rectTerm x y < y / Real.sqrt (1 + y ^ 2) * (Real.pi / 2) := by
  have hm := rectTerm_strictMono hy
  have h1 : rectTerm x y < rectTerm (x + 1) y := hm (lt_add_one x)
  have h2 : rectTerm (x + 1) y ≤ y / Real.sqrt (1 + y ^ 2) * (Real.pi / 2) := by
    apply ge_of_tendsto (rectTerm_tendsto y)
    filter_upwards [eventually_ge_atTop (x + 1)] with z hz
    exact hm.monotone hz
  linarith

lemma rectTerm_le_pi_div_two {y : ℝ} (hy : 0 < y) (x : ℝ) :
    rectTerm x y ≤ Real.pi / 2 := by
  have h1 := rectTerm_lt hy x
  have hT0 := sqrt_one_add_sq_pos y
  have h2 : y / Real.sqrt (1 + y ^ 2) ≤ 1 := by
    rw [div_le_one hT0]
    calc y = Real.sqrt (y ^ 2) := (Real.sqrt_sq hy.le).symm
    _ ≤ Real.sqrt (1 + y ^ 2) := Real.sqrt_le_sqrt (by linarith)
  have h3 : y / Real.sqrt (1 + y ^ 2) * (Real.pi / 2) ≤ 1 * (Real.pi / 2) :=
    mul_le_mul_of_nonneg_right h2 (by positivity)
  linarith

lemma rectTerm_neg_left (x y : ℝ) : rectTerm (-x) y = -rectTerm x y := by
  simp only [rectTerm, neg_sq, neg_div, Real.arctan_neg]
  ring

lemma rectTerm_add_nonneg {y : ℝ} (hy : 0 < y) {x1 x2 : ℝ} (h : 0 ≤ x1 + x2) :
    0 ≤ rectTerm x1 y + rectTerm x2 y := by
  have hmono := (rectTerm_strictMono hy).monotone (show -x1 ≤ x2 by linarith)
  rw [rectTerm_neg_left] at hmono
  linarith

lemma rectTerm_continuous : Continuous fun q : ℝ × ℝ => rectTerm q.1 q.2 := by
  unfold rectTerm
  have h1 : Continuous fun q : ℝ × ℝ => Real.sqrt (1 + q.1 ^ 2) :=
    (continuous_const.add (continuous_fst.pow 2)).sqrt
  have h2 : Continuous fun q : ℝ × ℝ => Real.sqrt (1 + q.2 ^ 2) :=
    (continuous_const.add (continuous_snd.pow 2)).sqrt
  have hne1 : ∀ q : ℝ × ℝ, Real.sqrt (1 + q.1 ^ 2) ≠ 0 := fun q =>
    ne_of_gt (sqrt_one_add_sq_pos _)
  have hne2 : ∀ q : ℝ × ℝ, Real.sqrt (1 + q.2 ^ 2) ≠ 0 := fun q =>
    ne_of_gt (sqrt_one_add_sq_pos _)
  exact ((continuous_fst.div h1 hne1).mul
      (Real.continuous_arctan.comp (continuous_snd.div h1 hne1))).add
    ((continuous_snd.div h2 hne2).mul
      (Real.continuous_arctan.comp (continuous_fst.div h2 hne2)))

lemma view_factor_calc_le_one (v : Vegetation) (angle d : ℝ) (hW : 0 < v.flame_width)
    (hp : 0 < d - 0.5 * v.flame_length * Real.cos angle) :
    v.view_factor_calc angle d ≤ 1 := by
  simp only [Vegetation.view_factor_calc]
  have hy : 0 < 0.5 * v.flame_width / (d - 0.5 * v.flame_length * Real.cos angle) :=
    div_pos (by linarith) hp
  have h1 := rectTerm_le_pi_div_two hy
    ((v.flame_length * Real.sin angle
        - 0.5 * v.flame_length * Real.cos angle * Real.tan v.site_slope
        - d * Real.tan v.site_slope - v.receiver_height) /
      (d - 0.5 * v.flame_length * Real.cos angle))
  have h2 := rectTerm_le_pi_div_two hy
    ((v.receiver_height + (d - 0.5 * v.flame_length * Real.cos angle) * Real.tan v.site_slope) /
      (d - 0.5 * v.flame_length * Real.cos angle))
  have hπ : (0:ℝ) < Real.pi := Real.pi_pos
  have hle : 1 / Real.pi *
        (rectTerm ((v.flame_length * Real.sin angle
            - 0.5 * v.flame_length * Real.cos angle * Real.tan v.site_slope
            - d * Real.tan v.site_slope - v.receiver_height) /
          (d - 0.5 * v.flame_length * Real.cos angle))
          (0.5 * v.flame_width / (d - 0.5 * v.flame_length * Real.cos angle)) +
        rectTerm ((v.receiver_height +
            (d - 0.5 * v.flame_length * Real.cos angle) * Real.tan v.site_slope) /
          (d - 0.5 * v.flame_length * Real.cos angle))
          (0.5 * v.flame_width / (d - 0.5 * v.flame_length * Real.cos angle)))
      ≤ 1 / Real.pi * (Real.pi / 2 + Real.pi / 2) := by
    apply mul_le_mul_of_nonneg_left _ (by positivity)
    linarith
  have heq : 1 / Real.pi * (Real.pi / 2 + Real.pi / 2) = 1 := by
    field_simp
  linarith

lemma view_factor_calc_nonneg_mid (v : Vegetation) (d : ℝ) (hW : 0 < v.flame_width)
    (hL : 0 ≤ v.flame_length) (hd : 0 < d) :
    0 ≤ v.view_factor_calc (Real.pi / 2) d := by
  simp only [Vegetation.view_factor_calc, Real.cos_pi_div_two, Real.sin_pi_div_two,
    mul_zero, zero_mul, mul_one, sub_zero]
  apply mul_nonneg (by positivity)
  apply rectTerm_add_nonneg (div_pos (by linarith) hd)
  rw [div_add_div_same]
  rw [show v.flame_length - d * Real.tan v.site_slope - v.receiver_height +
      (v.receiver_height + d * Real.tan v.site_slope) = v.flame_length from by ring]
  exact div_nonneg hL hd.le

lemma objective_continuousOn (v : Vegetation) (d : ℝ)
    (hp : ∀ α ∈ Set.Icc 0 Real.pi, d - 0.5 * v.flame_length * Real.cos α ≠ 0) :
    ContinuousOn (fun α => -v.view_factor_calc α d) (Set.Icc 0 Real.pi) := by
  simp only [Vegetation.view_factor_calc]
  apply ContinuousOn.neg
  have hP : ContinuousOn (fun α => d - 0.5 * v.flame_length * Real.cos α)
      (Set.Icc 0 Real.pi) :=
    (continuous_const.sub (continuous_const.mul Real.continuous_cos)).continuousOn
  have hx1 : ContinuousOn (fun α =>
      (v.flame_length * Real.sin α
          - 0.5 * v.flame_length * Real.cos α * Real.tan v.site_slope
          - d * Real.tan v.site_slope - v.receiver_height) /
        (d - 0.5 * v.flame_length * Real.cos α)) (Set.Icc 0 Real.pi) := by
    apply ContinuousOn.div _ hP hp
    exact ((((continuous_const.mul Real.continuous_sin).sub
      ((continuous_const.mul Real.continuous_cos).mul continuous_const)).sub
      continuous_const).sub continuous_const).continuousOn
  have hx2 : ContinuousOn (fun α =>
      (v.receiver_height +
          (d - 0.5 * v.flame_length * Real.cos α) * Real.tan v.site_slope) /
        (d - 0.5 * v.flame_length * Real.cos α)) (Set.Icc 0 Real.pi) := by
    apply ContinuousOn.div _ hP hp
    exact (continuous_const.add
      ((continuous_const.sub (continuous_const.mul Real.continuous_cos)).mul
        continuous_const)).continuousOn
  have hy : ContinuousOn (fun α =>
      0.5 * v.flame_width / (d - 0.5 * v.flame_length * Real.cos α)) (Set.Icc 0 Real.pi) :=
    ContinuousOn.div continuous_const.continuousOn hP hp
  have hterm1 := rectTerm_continuous.comp_continuousOn (hx1.prod hy)
  have hterm2 := rectTerm_continuous.comp_continuousOn (hx2.prod hy)
  exact continuousOn_const.mul (hterm1.add hterm2)

/-- C8: for every model instance (with the spec's physical invariants: positive
flame width, non-negative flame length) and every separation distance whose
path length `d - 0.5·L·cos(α)` stays positive for all candidate angles
`α ∈ [0, π]`, `view_factor` returns a view-factor value in `[0, 1]` and an
angle in `[0, π]`. -/
theorem C8_view_factor_bounds (v : Vegetation) (d : ℝ)
    (hW : 0 < v.flame_width) (hL : 0 ≤ v.flame_length)
    (hp : ∀ α ∈ Set.Icc 0 Real.pi, 0 < d - 0.5 * v.flame_length * Real.cos α) :
    ∃ phi angle, v.view_factor d = Except.ok (phi, angle) ∧
      0 ≤ phi ∧ phi ≤ 1 ∧ 0 ≤ angle ∧ angle ≤ Real.pi := by
  have hpne : ∀ α ∈ Set.Icc 0 Real.pi, d - 0.5 * v.flame_length * Real.cos α ≠ 0 :=
    fun α hα => ne_of_gt (hp α hα)
  have hcont := objective_continuousOn v d hpne
  have hset : (Set.Icc (0:ℝ) Real.pi).Nonempty := Set.nonempty_Icc.2 Real.pi_nonneg
  obtain ⟨c, hc, hmin⟩ := isCompact_Icc.exists_isMinOn hset hcont
  have hex : ∃ x ∈ Set.Icc (0:ℝ) Real.pi, ∀ z ∈ Set.Icc (0:ℝ) Real.pi,
      (fun angle => -v.view_factor_calc angle d) x
        ≤ (fun angle => -v.view_factor_calc angle d) z :=
    ⟨c, hc, fun z hz => hmin hz⟩
  have hview : v.view_factor d
      = Except.ok (- -v.view_factor_calc hex.choose d, hex.choose) := by
    unfold Vegetation.view_factor minimize_scalar view_factor_return
    rw [dif_pos hex]
  have hcmem : hex.choose ∈ Set.Icc (0:ℝ) Real.pi := hex.choose_spec.1
  have hminc := hex.choose_spec.2
  have hmid : Real.pi / 2 ∈ Set.Icc (0:ℝ) Real.pi :=
    ⟨by positivity, by linarith [Real.pi_pos]⟩
  have hd : 0 < d := by
    have h6 := hp (Real.pi / 2) hmid
    simpa [Real.cos_pi_div_two] using h6
  have hnonneg : 0 ≤ v.view_factor_calc hex.choose d := by
    have h5 := hminc (Real.pi / 2) hmid
    have h6 := view_factor_calc_nonneg_mid v d hW hL hd
    simp only at h5
    linarith
  refine ⟨- -v.view_factor_calc hex.choose d, hex.choose, hview, ?_, ?_, hcmem.1, hcmem.2⟩
  · rw [neg_neg]; exact hnonneg
  · rw [neg_neg]; exact view_factor_calc_le_one v hex.choose d hW (hp _ hcmem)

/-- C8 witness: `C8_view_factor_bounds` at the `Forest 0 0 50` model
(flame length `13.95`, flame width `100`) and separation distance `20`, where
the path length is at least `20 - 6.975 > 0` at every angle. -/
theorem C8_view_factor_bounds_witness :
    ∃ phi angle, ((Forest 0 0 50).toVegetation).view_factor 20 = Except.ok (phi, angle) ∧
      0 ≤ phi ∧ phi ≤ 1 ∧ 0 ≤ angle ∧ angle ≤ Real.pi := by
  have hfl : ((Forest 0 0 50).toVegetation).flame_length = 13.95 := forest_50_flame_length
  refine C8_view_factor_bounds ((Forest 0 0 50).toVegetation) 20 ?_ ?_ ?_
  · show (0:ℝ) < 100
    norm_num
  · rw [hfl]; norm_num
  · intro α hα
    rw [hfl]
    nlinarith [Real.cos_le_one α]
